import Mathlib

/-!
Shallow embedding of `govee2mqtt.py`: the advertisement decoding and
publish-gating engine of the Govee BLE → MQTT bridge, together with proofs
about its behaviour.

Modelling conventions:

* machine integers are `Nat`/`Int`; byte strings are `List Nat` with each
  element below 256;
* Python `dict` entries that may be absent are `Option` fields;
* temperature and humidity are kept in integer hundredths (the script stores
  `value / 100.0`; the division by the constant 100 is a pure display scaling
  and the claims under study are about the integer values recovered from the
  wire format);
* timestamps are integers (seconds); the debounce comparisons in the script
  only use subtraction and an ordering comparison;
* fallible steps (a Python exception escaping a function) are modelled with
  `Except`/explicit `crashed` flags.
-/

namespace Govee2Mqtt

/-- A Python string, as its sequence of code points. -/
abbrev Str := List Char

/-- Debounce interval in seconds: the global `log_interval = 59`. -/
def log_interval : Int := 59

/-- One supported sensor model: the 16-bit model identifier read from the
first two bytes of the manufacturer data, the exact expected total byte
length, and the byte offset of the packed reading triple. -/
structure DeviceLayout where
  prefix16 : Nat
  length : Nat
  offset : Nat
deriving DecidableEq

/-- H5074 devices: manufacturer-data head `0x88EC`, 9 bytes total, reading
unpacked at offset 3 (lines 154-155 of the script). -/
def h5074 : DeviceLayout := ⟨0x88EC, 9, 3⟩

/-- H5179 devices: manufacturer-data head `0x0188`, 11 bytes total, reading
unpacked at offset 6 (lines 168-169 of the script). -/
def h5179 : DeviceLayout := ⟨0x0188, 11, 6⟩

/-- The two supported layouts, in the order their guards appear. -/
def layouts : List DeviceLayout := [h5074, h5179]

/-- Model of `int(advertisement.mfg_data.hex()[0:4], 16)` (line 151): the
first four hex digits of the payload read as a number.  On an empty payload
the slice is the empty string and `int('', 16)` raises `ValueError`
(modelled as `Except.error`); on a single byte the slice holds just that
byte's two hex digits. -/
def readPrefix16 : List Nat → Except Unit Nat
  | [] => Except.error ()
  | [b0] => Except.ok b0
  | b0 :: b1 :: _ => Except.ok (b0 * 256 + b1)

/-- Guard of one per-model block: the head equals the layout's identifier and
the payload length is exactly the layout's expected length (lines 154, 168). -/
def matchesLayout (L : DeviceLayout) (p : Nat) (data : List Nat) : Bool :=
  p == L.prefix16 && data.length == L.length

/-- The Payload Classifier formed by lines 151-168: read the 16-bit head,
then test each known layout's (head, length) guard; `Except.error` models the
`ValueError` raised on an empty payload, `Except.ok none` a payload matching
no layout (silently ignored). -/
def classify (data : List Nat) : Except Unit (Option DeviceLayout) :=
  match readPrefix16 data with
  | Except.error e => Except.error e
  | Except.ok p => Except.ok (layouts.find? (fun L => matchesLayout L p data))

/-- Model of `twos_complement(n, w=16)` (lines 111-124): subtract `2^w` from
`n` exactly when bit `w - 1` of `n` is set. -/
def twos_complement (n : Nat) (w : Nat := 16) : Int :=
  if n &&& (1 <<< (w - 1)) ≠ 0 then (n : Int) - ((1 <<< w : Nat) : Int) else (n : Int)

/-- Byte access used by the fixed-offset decode.  The classifier's length
check guarantees every index used is in range wherever this is applied. -/
def byteAt (data : List Nat) (i : Nat) : Nat := data.getD i 0

/-- Model of `unpack_from("<HHB", data, off)` followed by the sign fix
(lines 155-158 and 169-172): a little-endian signed 16-bit temperature (in
hundredths of a degree, after `twos_complement`), a little-endian unsigned
16-bit humidity (in hundredths of a percent) and a battery byte. -/
def decodeFields (data : List Nat) (off : Nat) : Int × Nat × Nat :=
  (twos_complement (byteAt data off + 256 * byteAt data (off + 1)),
   byteAt data (off + 2) + 256 * byteAt data (off + 3),
   byteAt data (off + 4))

/-- One entry of the global `govee_devices` dict.  A dict created at
registration (lines 184-189) always holds `address`, `name`, `last_log` and
`timestamp`; the reading keys `temperature`, `humidity`, `battery` and
`rssi` are absent (`none`) until first written. -/
structure DeviceState where
  address : Str
  name : Str
  last_log : Int
  timestamp : Int
  temperature : Option Int := none
  humidity : Option Nat := none
  battery : Option Nat := none
  rssi : Option Int := none
deriving DecidableEq

/-- The fields of a bleson advertisement the script reads. -/
structure Advertisement where
  address : Str
  name : Option Str
  mfg_data : Option (List Nat)
  rssi : Option Int
deriving DecidableEq

/-- The command-line flags that affect the core control flow. -/
structure Args where
  ha_discovery : Bool
deriving DecidableEq

/-- Kind of exception raised by an MQTT-client call.  The `except` clause of
`mqtt_publish` (line 55) catches only `mqtt.MQTTException`; anything else
(for example the socket `ConnectionRefusedError` that `connect` raises when
the broker is unreachable) is not caught. -/
inductive SinkError where
  | mqttException
  | other
deriving DecidableEq

/-- Behaviour of the external MQTT sink during one `mqtt_publish` call:
whether `client.connect` raises, and whether `client.publish` raises. -/
structure Sink where
  connectError : Option SinkError
  publishError : Option SinkError
deriving DecidableEq

/-- The JSON payload assembled at lines 35-41. -/
structure Payload where
  temperature : Int
  humidity : Nat
  battery : Nat
  rssi : Int
  timestamp : Int
deriving DecidableEq

/-- Lines 35-41: reading the five keys out of the device dict.  A key that
was never written raises `KeyError`, modelled as `none`.  (`timestamp` is
always present, having been set at registration.) -/
def buildPayload (d : DeviceState) : Option Payload :=
  match d.temperature, d.humidity, d.battery, d.rssi with
  | some t, some h, some b, some r => some ⟨t, h, b, r, d.timestamp⟩
  | _, _, _, _ => none

/-- Result of a `mqtt_publish` call: either an exception escaped the function
(`raised`), or it returned, recording the payload (if any) that reached
`client.publish`, whether the autodiscovery messages were sent, and whether
the failure handler printed a report. -/
inductive PubOutcome where
  | raised : PubOutcome
  | ok : Option Payload → Bool → Bool → PubOutcome
deriving DecidableEq

/-- Model of `mqtt_publish(event, data)` (lines 15-57) for a registered
device.  The dict of a registered device always holds at least `address`,
`name`, `last_log` and `timestamp`, so the `if not data` early return never
fires.  Inside the `try`:

* `client.connect` raising: a non-MQTT error is not caught at all, and an
  `MQTTException` is caught but the handler then evaluates the still-unbound
  local `payload` (line 57) and raises `NameError` — either way the call
  raises;
* building `payload` raises `KeyError` (never caught) when a key is missing;
* `client.publish` raising a non-MQTT error is not caught; an
  `MQTTException` there is caught and reported, and the call returns with
  nothing published and no discovery messages sent;
* otherwise the payload is published and, when `ha_discovery` is set, the
  autodiscovery messages are sent — on every such call, with no
  first-publish guard anywhere (lines 49-51). -/
def mqtt_publish (a : Args) (sink : Sink) (d : DeviceState) : PubOutcome :=
  match sink.connectError with
  | some _ => PubOutcome.raised
  | none =>
    match buildPayload d with
    | none => PubOutcome.raised
    | some payload =>
      match sink.publishError with
      | some SinkError.other => PubOutcome.raised
      | some SinkError.mqttException => PubOutcome.ok none false true
      | none => PubOutcome.ok (some payload) a.ha_discovery false

/-- The global `govee_devices` dict, as a map from address to entry. -/
abbrev Registry := Str → Option DeviceState

/-- Point update of the dict. -/
def Registry.set (reg : Registry) (mac : Str) (d : DeviceState) : Registry :=
  fun m => if m = mac then some d else reg m

/-- The apostrophe character (codepoint 39). -/
def apostrophe : Char := Char.ofNat 39

/-- Model of `advertisement.name.split("'")[0]` (line 186): the part of the
raw name strictly before the first apostrophe, or the whole name when it
contains none. -/
def stripName (raw : Str) : Str := raw.takeWhile (fun c => c ≠ apostrophe)

/-- Lines 182-189: when the advertised name starts with `"Govee"` and the
address is unknown, create a fresh entry with `last_log = 0`,
`timestamp = 0` and no reading keys; otherwise leave the dict unchanged. -/
def register (reg : Registry) (mac : Str) (rawName : Str) : Registry :=
  if "Govee".toList.isPrefixOf rawName then
    match reg mac with
    | some _ => reg
    | none =>
        Registry.set reg mac
          { address := mac, name := stripName rawName, last_log := 0, timestamp := 0 }
  else reg

/-- Lines 156-163 (equally 170-177): write the decoded reading into the
entry.  `rssi` is only overwritten when the advertisement carries a value
that is neither `None` nor `0`. -/
def applyReading (dev : DeviceState) (mac : Str) (f : Int × Nat × Nat)
    (advRssi : Option Int) (now : Int) : DeviceState :=
  { dev with
    temperature := some f.1
    humidity := some f.2.1
    battery := some f.2.2
    timestamp := now
    address := mac
    rssi := match advRssi with
            | some v => if v ≠ 0 then some v else dev.rssi
            | none => dev.rssi }

/-- The Publish Gate at lines 149-150: `time_now - last_log > log_interval`. -/
def shouldPublish (s : DeviceState) (now : Int) : Bool :=
  decide (now - s.last_log > log_interval)

/-- Net effect of one per-model block on the entry and the outside world. -/
structure BlockResult where
  dev : DeviceState
  published : Option Payload
  discovery : Bool
  reported : Bool
  crashed : Bool
deriving DecidableEq

/-- One of the two per-model blocks (lines 154-165 and 168-179): when the
guard matches, decode at the layout's offset, write the reading into the
entry, call `mqtt_publish` (via `process`), and advance `last_log` only when
that call returned; an exception from it leaves `last_log` untouched and
propagates out of the callback. -/
def layoutBlock (a : Args) (sink : Sink) (L : DeviceLayout) (p : Nat)
    (mac : Str) (data : List Nat) (advRssi : Option Int) (now : Int)
    (dev : DeviceState) : BlockResult :=
  if matchesLayout L p data then
    let dev2 := applyReading dev mac (decodeFields data L.offset) advRssi now
    match mqtt_publish a sink dev2 with
    | PubOutcome.raised => ⟨dev2, none, false, false, true⟩
    | PubOutcome.ok pub disc rep => ⟨{ dev2 with last_log := now }, pub, disc, rep, false⟩
  else ⟨dev, none, false, false, false⟩

/-- Net effect of one `on_advertisement` callback: the dict afterwards, what
was published, whether discovery messages went out, whether a sink failure
was reported, and whether an exception escaped the callback. -/
structure StepResult where
  registry : Registry
  published : Option Payload
  discovery : Bool
  reported : Bool
  crashed : Bool

/-- Lines 148-179 of `on_advertisement`: for a registered device with
manufacturer data, evaluate the debounce gate first; on pass read the head
(which raises on empty data) and run the two per-model blocks in sequence.
A crash inside a block keeps that block's partial dict mutation (the reading
was written before `process` was called) and aborts the rest of the
callback. -/
def decodePhase (a : Args) (sink : Sink) (reg : Registry) (adv : Advertisement)
    (time_now : Int) : StepResult :=
  match reg adv.address, adv.mfg_data with
  | some dev, some data =>
    if shouldPublish dev time_now then
      match readPrefix16 data with
      | Except.error _ => ⟨reg, none, false, false, true⟩
      | Except.ok p =>
        let r1 := layoutBlock a sink h5074 p adv.address data adv.rssi time_now dev
        if r1.crashed then
          ⟨Registry.set reg adv.address r1.dev, r1.published, r1.discovery, r1.reported, true⟩
        else
          let r2 := layoutBlock a sink h5179 p adv.address data adv.rssi time_now r1.dev
          ⟨Registry.set reg adv.address r2.dev,
           (r1.published <|> r2.published),
           r1.discovery || r2.discovery,
           r1.reported || r2.reported,
           r2.crashed⟩
    else ⟨reg, none, false, false, false⟩
  | _, _ => ⟨reg, none, false, false, false⟩

/-- Model of the whole `on_advertisement` callback (lines 138-191): the
decode-and-publish phase above, then — only if no exception escaped it — the
registration block for vendor-named devices (lines 182-191). -/
def on_advertisement (a : Args) (sink : Sink) (reg : Registry)
    (adv : Advertisement) (time_now : Int) : StepResult :=
  let s1 := decodePhase a sink reg adv time_now
  if s1.crashed then s1
  else
    match adv.name with
    | some n => { s1 with registry := register s1.registry adv.address n }
    | none => s1

/-- Round-trip encoder for the two's-complement property of §8 of the spec:
a signed value encoded as two little-endian bytes of its 16-bit
two's-complement representation. -/
def encodeInt16LE (T : Int) : List Nat :=
  let u := (T % 65536).toNat
  [u % 256, u / 256]

/-! ### Helper lemmas -/

/-- For a 16-bit value, bit 15 is clear exactly when the value is below
`2^15`. -/
theorem and_bit15_eq_zero_iff (n : Nat) (h : n < 65536) :
    (n &&& 32768 = 0) ↔ n < 32768 := by
  have h1 : n &&& 2 ^ 15 = (n.testBit 15).toNat * 2 ^ 15 := Nat.and_two_pow n 15
  rw [Nat.testBit_to_div_mod] at h1
  norm_num at h1
  by_cases h2 : n / 32768 % 2 = 1
  · simp only [h2, decide_True, Bool.toNat_true, one_mul] at h1
    omega
  · simp only [h2, decide_False, Bool.toNat_false, zero_mul] at h1
    omega

/-- Round trip of the decoder's sign recovery over the full signed 16-bit
range. -/
theorem decode_encode_int16 (T : Int) (hlo : -32768 ≤ T) (hhi : T < 32768) :
    (decodeFields (encodeInt16LE T) 0).1 = T := by
  have hfold : (decodeFields (encodeInt16LE T) 0).1 =
      twos_complement ((T % 65536).toNat % 256 + 256 * ((T % 65536).toNat / 256)) := rfl
  have hsum : (T % 65536).toNat % 256 + 256 * ((T % 65536).toNat / 256) =
      (T % 65536).toNat := Nat.mod_add_div _ 256
  rw [hfold, hsum]
  unfold twos_complement
  rw [show (1 <<< (16 - 1) : Nat) = 32768 from by decide,
      show (1 <<< 16 : Nat) = 65536 from by decide]
  have hu : ((T % 65536).toNat : Int) = T % 65536 := by omega
  have hult : (T % 65536).toNat < 65536 := by omega
  by_cases hbit : (T % 65536).toNat &&& 32768 ≠ 0
  · rw [if_pos hbit]
    have hge : ¬ (T % 65536).toNat < 32768 := fun hlt =>
      hbit ((and_bit15_eq_zero_iff _ hult).mpr hlt)
    omega
  · rw [if_neg hbit]
    push_neg at hbit
    have hlt : (T % 65536).toNat < 32768 := (and_bit15_eq_zero_iff _ hult).mp hbit
    omega

/-! ### C7 -/

/-- C7: for every signed 16-bit temperature value T in the spec's stated
range (−200 ≤ T ≤ 200, hundredths of a degree), encoding T as little-endian
two's-complement bytes and decoding it through the decoder's sign recovery
(`twos_complement`, subtracting `2^16` when bit 15 is set) recovers T
exactly, including negative values. -/
theorem C7_twos_complement_roundtrip (T : Int) (h1 : -200 ≤ T) (h2 : T ≤ 200) :
    (decodeFields (encodeInt16LE T) 0).1 = T :=
  decode_encode_int16 T (by omega) (by omega)

/-- Witness for C7 at the concrete negative value −0.55 °C. -/
theorem C7_twos_complement_roundtrip_witness :
    (-200 : Int) ≤ -55 ∧ (-55 : Int) ≤ 200 ∧
      (decodeFields (encodeInt16LE (-55)) 0).1 = -55 :=
  ⟨by decide, by decide, C7_twos_complement_roundtrip (-55) (by decide) (by decide)⟩

/-! ### Concrete fixtures -/

/-- Flags with autodiscovery off. -/
def a0 : Args := ⟨false⟩

/-- Flags with autodiscovery on. -/
def aHA : Args := ⟨true⟩

/-- A sink on which both calls succeed. -/
def sinkOK : Sink := ⟨none, none⟩

/-- A sink whose publish call raises `mqtt.MQTTException`. -/
def sinkMqtt : Sink := ⟨none, some SinkError.mqttException⟩

/-- A sink whose publish call raises a non-MQTT exception. -/
def sinkOther : Sink := ⟨none, some SinkError.other⟩

/-- The empty dict. -/
def regEmpty : Registry := fun _ => none

/-- A freshly registered device: no reading keys yet, `last_log = 0`. -/
def devA : DeviceState :=
  { address := "AA".toList, name := "GoveeX".toList, last_log := 0, timestamp := 0 }

/-- A dict holding just the freshly registered device. -/
def regA : Registry := Registry.set regEmpty "AA".toList devA

/-- An H5074 manufacturer payload: head `0x88EC`, 9 bytes, encoding
temperature 21.30 °C, humidity 55.20 %, battery 88. -/
def mfgH5074 : List Nat := [0x88, 0xEC, 0x00, 0x52, 0x08, 0x90, 0x15, 0x58, 0x00]

/-- An advertisement from the registered device carrying that payload and a
−72 dBm signal strength. -/
def advPub : Advertisement := ⟨"AA".toList, none, some mfgH5074, some (-72)⟩

/-- The same advertisement with no signal-strength indicator. -/
def advNoRssi : Advertisement := ⟨"AA".toList, none, some mfgH5074, none⟩

/-- A device entry after a previous successful publish: complete reading,
`rssi = −72`, nonzero `last_log`. -/
def devPublished : DeviceState :=
  { address := "AA".toList, name := "GoveeX".toList, last_log := 61, timestamp := 100,
    temperature := some 2130, humidity := some 5520, battery := some 88,
    rssi := some (-72) }

/-- A raw advertised name with the vendor firmware's possessive suffix:
`GoveeX` followed by an apostrophe and `ABC`. -/
def rawNameW : Str := "GoveeX".toList ++ [apostrophe] ++ "ABC".toList

/-! ### C3 -/

/-- C3 (counterexample): the Publish Gate does not check reading
completeness, so the claimed equivalence — true iff the window elapsed AND
temperature and humidity are both present — is false: a freshly registered
device with no reading passes the gate at 60 elapsed seconds. -/
theorem C3_counterexample :
    ¬ (∀ (s : DeviceState) (now : Int),
        shouldPublish s now = true ↔
          (now - s.last_log > log_interval ∧ s.temperature.isSome = true ∧
            s.humidity.isSome = true)) := by
  intro h
  have h2 := (h devA 60).mp (by decide)
  exact absurd h2.2.1 (by decide)

/-- C3 (amended): `shouldPublish state now` is true if and only if
`now - state.last_log > log_interval` (with `log_interval = 59`), regardless
of reading completeness; in particular an elapsed time of exactly 59 yields
false and an elapsed time of 60 yields true. -/
theorem C3_gate_iff (s : DeviceState) (now : Int) :
    (shouldPublish s now = true ↔ now - s.last_log > log_interval) ∧
    (now - s.last_log = 59 → shouldPublish s now = false) ∧
    (now - s.last_log = 60 → shouldPublish s now = true) := by
  unfold shouldPublish log_interval
  refine ⟨by simp, fun h => ?_, fun h => ?_⟩
  · rw [h]; decide
  · rw [h]; decide

/-- Witness for C3 (amended) at elapsed times 59 and 60 from a fresh
device. -/
theorem C3_gate_iff_witness :
    shouldPublish devA 59 = false ∧ shouldPublish devA 60 = true :=
  ⟨(C3_gate_iff devA 59).2.1 (by decide), (C3_gate_iff devA 60).2.2 (by decide)⟩

/-! ### C8 -/

/-- A dict with an entry for an address is left unchanged by `register` at
that address. -/
theorem register_preserves_existing (reg : Registry) (mac raw : Str)
    (d : DeviceState) (h : reg mac = some d) : register reg mac raw = reg := by
  unfold register
  by_cases hs : "Govee".toList.isPrefixOf raw = true
  · rw [if_pos hs, h]
  · rw [if_neg hs]

/-- C8: for a raw name starting with the vendor product-name head "Govee",
registering the same address a second time yields the same registry (so the
same `DeviceState`, with reading and last-publish timestamp untouched); a
pre-existing entry is returned unchanged; and a first registration creates
the entry with `last_log = 0`, no reading keys, and display name equal to
the portion of the raw name preceding the first apostrophe. -/
theorem C8_register_idempotent (reg : Registry) (mac raw : Str)
    (h : "Govee".toList.isPrefixOf raw = true) :
    register (register reg mac raw) mac raw = register reg mac raw ∧
    (∀ d, reg mac = some d → register reg mac raw = reg) ∧
    (reg mac = none → register reg mac raw mac =
      some { address := mac, name := stripName raw, last_log := 0, timestamp := 0 }) := by
  refine ⟨?_, fun d hd => register_preserves_existing reg mac raw d hd, fun hm => ?_⟩
  · cases hm : reg mac with
    | some d =>
        rw [register_preserves_existing reg mac raw d hm,
          register_preserves_existing reg mac raw d hm]
    | none =>
        have hset : register reg mac raw mac =
            some { address := mac, name := stripName raw, last_log := 0,
                   timestamp := 0 } := by
          unfold register
          rw [if_pos h, hm]
          simp [Registry.set]
        exact register_preserves_existing _ mac raw _ hset
  · unfold register
    rw [if_pos h, hm]
    simp [Registry.set]

/-- Witness for C8 on a concrete vendor name containing an apostrophe. -/
theorem C8_register_idempotent_witness :
    "Govee".toList.isPrefixOf rawNameW = true ∧
    stripName rawNameW = "GoveeX".toList ∧
    register (register regEmpty "AA".toList rawNameW) "AA".toList rawNameW =
      register regEmpty "AA".toList rawNameW ∧
    register regEmpty "AA".toList rawNameW "AA".toList =
      some { address := "AA".toList, name := stripName rawNameW, last_log := 0,
             timestamp := 0 } :=
  ⟨by decide, by decide,
   (C8_register_idempotent regEmpty "AA".toList rawNameW (by decide)).1,
   (C8_register_idempotent regEmpty "AA".toList rawNameW (by decide)).2.2 rfl⟩

/-! ### C9 -/

/-- C9: when a device's stored signal strength is a known value, an accepted
broadcast whose signal-strength indicator is absent or zero leaves the
stored value unchanged, while temperature, humidity, battery and timestamp
are still updated; and the stored value is overwritten exactly when the
incoming value is present and nonzero. -/
theorem C9_rssi_retention (dev : DeviceState) (mac : Str) (f : Int × Nat × Nat)
    (r : Option Int) (now : Int) (v : Int)
    (hprev : dev.rssi = some v)
    (hr : r = none ∨ r = some 0) :
    (applyReading dev mac f r now).rssi = some v ∧
    (applyReading dev mac f r now).temperature = some f.1 ∧
    (applyReading dev mac f r now).humidity = some f.2.1 ∧
    (applyReading dev mac f r now).battery = some f.2.2 ∧
    (applyReading dev mac f r now).timestamp = now ∧
    (∀ w : Int, w ≠ 0 → (applyReading dev mac f (some w) now).rssi = some w) := by
  have hup : ∀ w : Int, w ≠ 0 →
      (applyReading dev mac f (some w) now).rssi = some w := by
    intro w hw; simp [applyReading, hw]
  rcases hr with rfl | rfl
  · exact ⟨by simp [applyReading, hprev], rfl, rfl, rfl, rfl, hup⟩
  · exact ⟨by simp [applyReading, hprev], rfl, rfl, rfl, rfl, hup⟩

/-- Witness for C9: a broadcast with signal strength 0 after the device held
−72 dBm leaves the stored value at −72. -/
theorem C9_rssi_retention_witness :
    (applyReading devPublished "AA".toList (2130, 5520, 88) (some 0) 200).rssi = some (-72) :=
  (C9_rssi_retention devPublished "AA".toList (2130, 5520, 88) (some 0) 200 (-72) rfl
    (Or.inr rfl)).1

/-! ### C6 -/

/-- C6: for every known layout L and every payload of length exactly
`L.length` whose first two bytes, read big-endian, equal `L.prefix16`, the
classifier selects L; no other layout's guard matches that payload; and at
most one layout ever matches any payload. -/
theorem C6_classifier_unique (L : DeviceLayout) (data : List Nat)
    (hL : L ∈ layouts) (hp : readPrefix16 data = Except.ok L.prefix16)
    (hlen : data.length = L.length) :
    classify data = Except.ok (some L) ∧
    (∀ M ∈ layouts, matchesLayout M L.prefix16 data = true → M = L) ∧
    (∀ (q : Nat) (d2 : List Nat), ∀ M ∈ layouts, ∀ M2 ∈ layouts,
      matchesLayout M q d2 = true → matchesLayout M2 q d2 = true → M = M2) := by
  have huniq : ∀ (q : Nat) (d2 : List Nat), ∀ M ∈ layouts, ∀ M2 ∈ layouts,
      matchesLayout M q d2 = true → matchesLayout M2 q d2 = true → M = M2 := by
    intro q d2 M hM M2 hM2 h1 h2
    have hM' : M = h5074 ∨ M = h5179 := by simpa [layouts] using hM
    have hM2' : M2 = h5074 ∨ M2 = h5179 := by simpa [layouts] using hM2
    rcases hM' with rfl | rfl <;> rcases hM2' with rfl | rfl <;>
      simp_all [matchesLayout, h5074, h5179]
  have hself : matchesLayout L L.prefix16 data = true := by
    simp [matchesLayout, hlen]
  refine ⟨?_, fun M hM hmatch => huniq L.prefix16 data M hM L hL hmatch hself, huniq⟩
  have hL' : L = h5074 ∨ L = h5179 := by simpa [layouts] using hL
  rcases hL' with rfl | rfl
  · have hm2 : matchesLayout h5179 h5074.prefix16 data = false := by
      simp [matchesLayout, h5179, h5074]
    unfold classify
    rw [hp]
    simp [layouts, List.find?, hself, hm2]
  · have hm1 : matchesLayout h5074 h5179.prefix16 data = false := by
      simp [matchesLayout, h5179, h5074]
    unfold classify
    rw [hp]
    simp [layouts, List.find?, hself, hm1]

/-- Witness for C6: a 9-byte payload with head `0x88EC` is classified as
H5074. -/
theorem C6_classifier_unique_witness :
    h5074 ∈ layouts ∧ readPrefix16 mfgH5074 = Except.ok h5074.prefix16 ∧
    mfgH5074.length = h5074.length ∧
    classify mfgH5074 = Except.ok (some h5074) :=
  ⟨by decide, rfl, rfl, (C6_classifier_unique h5074 mfgH5074 (by decide) rfl rfl).1⟩

/-! ### Decode-phase characterization for an H5074 advertisement -/

/-- On a registered device whose advertisement passes the gate and carries an
H5074 payload, the decode phase writes the decoded reading into the entry and
then behaves according to the outcome of `mqtt_publish`: a raise keeps the
old `last_log` and crashes the callback; a return advances `last_log`. -/
theorem decodePhase_h5074 (a : Args) (sink : Sink) (reg : Registry)
    (adv : Advertisement) (dev : DeviceState) (data : List Nat) (now : Int)
    (hreg : reg adv.address = some dev)
    (hmfg : adv.mfg_data = some data)
    (hgate : shouldPublish dev now = true)
    (hp : readPrefix16 data = Except.ok 0x88EC)
    (hlen : data.length = 9) :
    decodePhase a sink reg adv now =
      (match mqtt_publish a sink
          (applyReading dev adv.address (decodeFields data 3) adv.rssi now) with
       | PubOutcome.raised =>
           ⟨Registry.set reg adv.address
              (applyReading dev adv.address (decodeFields data 3) adv.rssi now),
            none, false, false, true⟩
       | PubOutcome.ok pub disc rep =>
           ⟨Registry.set reg adv.address
              { applyReading dev adv.address (decodeFields data 3) adv.rssi now with
                last_log := now },
            pub, disc, rep, false⟩) := by
  unfold decodePhase layoutBlock
  rw [hreg, hmfg]
  cases hmp : mqtt_publish a sink
      (applyReading dev adv.address (decodeFields data 3) adv.rssi now) with
  | raised => simp [hgate, hp, matchesLayout, h5074, h5179, hlen, hmp]
  | ok pub disc rep =>
      cases pub <;> simp [hgate, hp, matchesLayout, h5074, h5179, hlen, hmp]

/-- When the decode phase did not crash and the dict still has an entry for
the advertiser, the trailing registration block changes nothing. -/
theorem on_advertisement_of_decodePhase (a : Args) (sink : Sink) (reg : Registry)
    (adv : Advertisement) (now : Int) (s : StepResult)
    (hs : decodePhase a sink reg adv now = s)
    (hcrash : s.crashed = false)
    (d : DeviceState) (hd : s.registry adv.address = some d) :
    on_advertisement a sink reg adv now = s := by
  obtain ⟨sreg, spub, sdisc, srep, scrash⟩ := s
  change scrash = false at hcrash
  change sreg adv.address = some d at hd
  subst hcrash
  unfold on_advertisement
  rw [hs]
  cases hname : adv.name with
  | none => simp
  | some n => simp [register_preserves_existing _ _ n d hd]

/-- A crash in the decode phase aborts the whole callback. -/
theorem on_advertisement_of_crash (a : Args) (sink : Sink) (reg : Registry)
    (adv : Advertisement) (now : Int) (s : StepResult)
    (hs : decodePhase a sink reg adv now = s)
    (hcrash : s.crashed = true) :
    on_advertisement a sink reg adv now = s := by
  obtain ⟨sreg, spub, sdisc, srep, scrash⟩ := s
  change scrash = true at hcrash
  subst hcrash
  unfold on_advertisement
  rw [hs]
  simp

/-! ### C10 -/

/-- C10: for a registered device whose entry never received a signal-strength
key (all its broadcasts carried an absent or zero indicator), the first
eligible emission fails with a missing-key error while building the outgoing
payload: the callback crashes, nothing is published, and the last-publish
timestamp does not advance. -/
theorem C10_missing_rssi_crash (a : Args) (sink : Sink) (reg : Registry)
    (adv : Advertisement) (dev : DeviceState) (data : List Nat) (now : Int)
    (hreg : reg adv.address = some dev)
    (hmfg : adv.mfg_data = some data)
    (hgate : shouldPublish dev now = true)
    (hp : readPrefix16 data = Except.ok 0x88EC)
    (hlen : data.length = 9)
    (hrssi : dev.rssi = none)
    (hadv : adv.rssi = none ∨ adv.rssi = some 0)
    (hc : sink.connectError = none) :
    buildPayload (applyReading dev adv.address (decodeFields data 3) adv.rssi now) = none ∧
    (on_advertisement a sink reg adv now).crashed = true ∧
    (on_advertisement a sink reg adv now).published = none ∧
    ((on_advertisement a sink reg adv now).registry adv.address).map
      (fun d2 => d2.last_log) = some dev.last_log := by
  have hbp : buildPayload
      (applyReading dev adv.address (decodeFields data 3) adv.rssi now) = none := by
    rcases hadv with hr | hr <;> simp [buildPayload, applyReading, hr, hrssi]
  have hmp : mqtt_publish a sink
      (applyReading dev adv.address (decodeFields data 3) adv.rssi now) =
      PubOutcome.raised := by
    simp [mqtt_publish, hc, hbp]
  have hdp := decodePhase_h5074 a sink reg adv dev data now hreg hmfg hgate hp hlen
  rw [hmp] at hdp
  have hoa := on_advertisement_of_crash a sink reg adv now _ hdp rfl
  rw [hoa]
  refine ⟨hbp, rfl, rfl, ?_⟩
  simp [Registry.set]
  rfl

/-- Witness for C10: the fresh device with no rssi key, a valid H5074
broadcast with no signal-strength indicator, a working sink. -/
theorem C10_missing_rssi_crash_witness :
    buildPayload
      (applyReading devA advNoRssi.address (decodeFields mfgH5074 3) advNoRssi.rssi 100) =
      none ∧
    (on_advertisement a0 sinkOK regA advNoRssi 100).crashed = true ∧
    (on_advertisement a0 sinkOK regA advNoRssi 100).published = none ∧
    ((on_advertisement a0 sinkOK regA advNoRssi 100).registry advNoRssi.address).map
      (fun d2 => d2.last_log) = some devA.last_log :=
  C10_missing_rssi_crash a0 sinkOK regA advNoRssi devA mfgH5074 100 (by decide) rfl
    (by decide) rfl rfl rfl (Or.inl rfl) rfl

/-! ### C5 -/

/-- C5 (counterexample): a publish failure that is not an `MQTTException`
(for example a plain socket error) escapes `mqtt_publish`; it is not
reported, nothing is published, and the last-publish timestamp does NOT
advance — refuting the claim that state commits for every kind of sink
failure. -/
theorem C5_counterexample :
    (on_advertisement a0 sinkOther regA advPub 100).crashed = true ∧
    (on_advertisement a0 sinkOther regA advPub 100).reported = false ∧
    (on_advertisement a0 sinkOther regA advPub 100).published = none ∧
    ((on_advertisement a0 sinkOther regA advPub 100).registry "AA".toList).map
      (fun d2 => d2.last_log) = some 0 := by decide

/-- C5 (amended): only a sink failure raised as `mqtt.MQTTException` by the
publish call is caught: it is reported, the stored reading is kept, and the
last-publish timestamp still advances to `now`; any other failure propagates
out of the emitter and `last_log` does not advance. -/
theorem C5_mqtt_exception_commits (a : Args) (reg : Registry)
    (adv : Advertisement) (dev : DeviceState) (data : List Nat) (pl : Payload)
    (now : Int)
    (hreg : reg adv.address = some dev)
    (hmfg : adv.mfg_data = some data)
    (hgate : shouldPublish dev now = true)
    (hp : readPrefix16 data = Except.ok 0x88EC)
    (hlen : data.length = 9)
    (hpl : buildPayload (applyReading dev adv.address (decodeFields data 3) adv.rssi now) =
      some pl) :
    (on_advertisement a sinkMqtt reg adv now).crashed = false ∧
    (on_advertisement a sinkMqtt reg adv now).reported = true ∧
    (on_advertisement a sinkMqtt reg adv now).published = none ∧
    (on_advertisement a sinkMqtt reg adv now).registry adv.address =
      some { applyReading dev adv.address (decodeFields data 3) adv.rssi now with
             last_log := now } := by
  have hmp : mqtt_publish a sinkMqtt
      (applyReading dev adv.address (decodeFields data 3) adv.rssi now) =
      PubOutcome.ok none false true := by
    simp [mqtt_publish, sinkMqtt, hpl]
  have hdp := decodePhase_h5074 a sinkMqtt reg adv dev data now hreg hmfg hgate hp hlen
  rw [hmp] at hdp
  have hset : (Registry.set reg adv.address
      { applyReading dev adv.address (decodeFields data 3) adv.rssi now with
        last_log := now }) adv.address =
      some { applyReading dev adv.address (decodeFields data 3) adv.rssi now with
             last_log := now } := by
    simp [Registry.set]
  have hoa := on_advertisement_of_decodePhase a sinkMqtt reg adv now _ hdp rfl _ hset
  rw [hoa]
  exact ⟨rfl, rfl, rfl, hset⟩

/-- Witness for C5 (amended): the fresh device, a valid H5074 broadcast with
signal strength −72, and a sink whose publish call raises
`mqtt.MQTTException`. -/
theorem C5_mqtt_exception_commits_witness :
    (on_advertisement a0 sinkMqtt regA advPub 100).crashed = false ∧
    (on_advertisement a0 sinkMqtt regA advPub 100).reported = true ∧
    (on_advertisement a0 sinkMqtt regA advPub 100).published = none ∧
    (on_advertisement a0 sinkMqtt regA advPub 100).registry advPub.address =
      some { applyReading devA advPub.address (decodeFields mfgH5074 3) advPub.rssi 100 with
             last_log := 100 } :=
  C5_mqtt_exception_commits a0 regA advPub devA mfgH5074 ⟨2130, 5520, 88, -72, 100⟩ 100
    (by decide) rfl (by decide) rfl rfl (by decide)

/-! ### C2 -/

/-- A device entry that last published at time 100 and has no reading keys
yet. -/
def devC2pre : DeviceState :=
  { address := "AA".toList, name := "GoveeX".toList, last_log := 100, timestamp := 0 }

/-- A dict holding just that entry. -/
def regC2 : Registry := Registry.set regEmpty "AA".toList devC2pre

/-- C2 (counterexample): an advertisement carrying a perfectly decodable
H5074 payload that arrives 20 seconds after the last publish (inside the
debounce window) updates NOTHING: the entry still has no temperature key
afterwards, and nothing is published — refuting the claim that decoded
values update the registry before the gate is evaluated and that only the
emission is withheld. -/
theorem C2_counterexample :
    classify mfgH5074 = Except.ok (some h5074) ∧
    (decodeFields mfgH5074 3).1 = 2130 ∧
    (on_advertisement a0 sinkOK regC2 advPub 120).registry "AA".toList = some devC2pre ∧
    devC2pre.temperature = none ∧
    (on_advertisement a0 sinkOK regC2 advPub 120).published = none := by
  exact ⟨rfl, by decide, by decide, rfl, by decide⟩

/-- Shared fact: a closed gate drops the advertisement without touching the
entry. -/
theorem gate_closed_drops (a : Args) (sink : Sink) (reg : Registry)
    (adv : Advertisement) (dev : DeviceState) (now : Int)
    (hreg : reg adv.address = some dev)
    (hgate : shouldPublish dev now = false) :
    (on_advertisement a sink reg adv now).registry adv.address = some dev ∧
    (on_advertisement a sink reg adv now).published = none ∧
    (on_advertisement a sink reg adv now).crashed = false := by
  have hdp : decodePhase a sink reg adv now = ⟨reg, none, false, false, false⟩ := by
    unfold decodePhase
    cases hmfg : adv.mfg_data with
    | none => rw [hreg]
    | some data => rw [hreg]; simp [hgate]
  have hoa := on_advertisement_of_decodePhase a sink reg adv now _ hdp rfl dev hreg
  rw [hoa]
  exact ⟨hreg, rfl, rfl⟩

/-- C2 (amended): the debounce gate is evaluated before any decoding; an
advertisement from a registered device arriving within the debounce window
is dropped entirely — the stored reading fields are not updated, nothing is
published, and the callback returns normally. -/
theorem C2_gate_before_decode (a : Args) (sink : Sink) (reg : Registry)
    (adv : Advertisement) (dev : DeviceState) (now : Int)
    (hreg : reg adv.address = some dev)
    (hgate : shouldPublish dev now = false) :
    (on_advertisement a sink reg adv now).registry adv.address = some dev ∧
    (on_advertisement a sink reg adv now).published = none ∧
    (on_advertisement a sink reg adv now).crashed = false :=
  gate_closed_drops a sink reg adv dev now hreg hgate

/-- Witness for C2 (amended) at the concrete in-window instance. -/
theorem C2_gate_before_decode_witness :
    (on_advertisement a0 sinkOK regC2 advPub 120).registry advPub.address =
      some devC2pre ∧
    (on_advertisement a0 sinkOK regC2 advPub 120).published = none ∧
    (on_advertisement a0 sinkOK regC2 advPub 120).crashed = false :=
  C2_gate_before_decode a0 sinkOK regC2 advPub devC2pre 120 (by decide) (by decide)

/-! ### C1 -/

/-- C1 (counterexample): with autodiscovery enabled, the discovery messages
are sent on the FIRST successful publish and AGAIN on a later publish of the
same device — refuting the claim that the announcement fires at most once
per device per process lifetime. -/
theorem C1_counterexample :
    (on_advertisement aHA sinkOK regA advPub 100).published.isSome = true ∧
    (on_advertisement aHA sinkOK regA advPub 100).discovery = true ∧
    ((on_advertisement aHA sinkOK regA advPub 100).registry "AA".toList).map
      (fun d2 => d2.last_log) = some 100 ∧
    (on_advertisement aHA sinkOK
      (on_advertisement aHA sinkOK regA advPub 100).registry advPub 200).published.isSome =
      true ∧
    (on_advertisement aHA sinkOK
      (on_advertisement aHA sinkOK regA advPub 100).registry advPub 200).discovery =
      true := by decide

/-- C1 (amended): the discovery announcement is sent on EVERY successful
publish when the discovery flag is enabled (and never when it is disabled):
`mqtt_publish` has no first-publish guard, so the outcome is independent of
the device's last-publish timestamp. -/
theorem C1_discovery_every_publish (a : Args) (sink : Sink) (d : DeviceState)
    (p : Payload)
    (hc : sink.connectError = none) (hpub : sink.publishError = none)
    (hb : buildPayload d = some p) :
    mqtt_publish a sink d = PubOutcome.ok (some p) a.ha_discovery false := by
  simp [mqtt_publish, hc, hpub, hb]

/-- Witness for C1 (amended): a device that is NOT on its first publish
(`last_log = 61`) still gets the discovery messages. -/
theorem C1_discovery_every_publish_witness :
    devPublished.last_log = 61 ∧
    mqtt_publish aHA sinkOK devPublished =
      PubOutcome.ok (some ⟨2130, 5520, 88, -72, 100⟩) true false :=
  ⟨rfl, C1_discovery_every_publish aHA sinkOK devPublished ⟨2130, 5520, 88, -72, 100⟩
    rfl rfl rfl⟩

/-! ### C4 -/

/-- C4 (code defect): classification is NOT total — an empty
manufacturer-data byte sequence reaches `int('', 16)`, which raises
`ValueError`, and the callback crashes instead of silently ignoring the
payload as it does for every other unmatched byte sequence. -/
theorem C4_empty_payload_raises :
    classify [] = Except.error () ∧
    (on_advertisement a0 sinkOK regA ⟨"AA".toList, none, some [], none⟩ 100).crashed =
      true := by
  exact ⟨rfl, by decide⟩

/-- For every nonempty byte sequence the classifier is total, and an
unmatched one is silently ignored: the callback leaves the dict entry
unchanged, publishes nothing and does not crash. -/
theorem nonempty_no_match_ignored (a : Args) (sink : Sink) (reg : Registry)
    (adv : Advertisement) (dev : DeviceState) (data : List Nat) (p : Nat) (now : Int)
    (hreg : reg adv.address = some dev)
    (hmfg : adv.mfg_data = some data)
    (hp : readPrefix16 data = Except.ok p)
    (hm1 : matchesLayout h5074 p data = false)
    (hm2 : matchesLayout h5179 p data = false) :
    (on_advertisement a sink reg adv now).registry adv.address = some dev ∧
    (on_advertisement a sink reg adv now).published = none ∧
    (on_advertisement a sink reg adv now).crashed = false ∧
    classify data = Except.ok none := by
  have hcl : classify data = Except.ok none := by
    unfold classify
    rw [hp]
    simp [layouts, List.find?, hm1, hm2]
  by_cases hgate : shouldPublish dev now = true
  · have hdp : decodePhase a sink reg adv now =
        ⟨Registry.set reg adv.address dev, none, false, false, false⟩ := by
      unfold decodePhase layoutBlock
      rw [hreg, hmfg]
      simp [hgate, hp, hm1, hm2]
    have hset : (Registry.set reg adv.address dev) adv.address = some dev := by
      simp [Registry.set]
    have hoa := on_advertisement_of_decodePhase a sink reg adv now _ hdp rfl dev hset
    rw [hoa]
    exact ⟨hset, rfl, rfl, hcl⟩
  · have hgate2 : shouldPublish dev now = false := by
      revert hgate; cases shouldPublish dev now <;> simp
    have h3 := gate_closed_drops a sink reg adv dev now hreg hgate2
    exact ⟨h3.1, h3.2.1, h3.2.2, hcl⟩

end Govee2Mqtt
